import Mathlib

/-!
Shallow embedding of src/TrafficPi.cpp.

Modelling conventions:
- C `int` values are modelled as 32-bit two of complement bit patterns, i.e. `Nat`
  values reduced modulo `2 ^ 32` wherever the C code can wrap. A right shift of a
  signed `int` is arithmetic (sign extending) on the target compilers (gcc/clang on
  the Raspberry Pi), modelled by `sar32`. A left shift that overflows a signed `int`
  wraps modulo `2 ^ 32` in practice, modelled by an explicit `% 2 ^ 32`.
- `INT_BITS` is used by `rightRotate`/`leftRotate` (lines 348-368) but never defined
  in the source; the code is the standard 32-bit rotation idiom and `int` is 32 bits
  wide on the target, so we take `INT_BITS = 32`.
- `gpioRead` results are the booleans read from the switch pins; they enter the
  model as explicit `Bool` arguments of the alert handlers.
- The global mutable state (`Sequence_Stage` line 125, `BIAS_ON_MASK` line 121,
  `BIAS_OFF_MASK` line 122) becomes the record `SysState`, and each handler becomes
  a function from state (plus its pin reads) to state.
- In `RotateDown`/`RotateUp` (lines 185-203) the source names `Sequence_Step`,
  an identifier that is declared nowhere; the only sequence variable is the global
  `Sequence_Stage`, which the comments on lines 184 and 196 name as the variable
  these functions step, so `Sequence_Step` is read as `Sequence_Stage`.
- The static locals `_speed` and `_rotation` of `updateTimerMode` (lines 222-223)
  and the single pigpio timer slot 0 become the record `ModeState`; an armed timer
  is `some (interval, rotationIndex)` where the rotation index selects the callback
  from the dispatch array { RotateDown, RotateUp, RotateNone } of line 225.
-/

namespace TrafficPi

/-- Speed constants, lines 16-18 of the source. -/
def slowSpeed : Nat := 5000

def mediumSpeed : Nat := 2000

def fastSpeed : Nat := 1000

/-- Mode pin numbers, lines 79-88 of the source. -/
def modeRand : Nat := 0

def modeDownSlow : Nat := 5

def modeDownMedium : Nat := 6

def modeDownFast : Nat := 13

def modeUpSlow : Nat := 19

def modeUpMedium : Nat := 26

def modeUpFast : Nat := 12

def modeFlashSlow : Nat := 16

def modeFlashMedium : Nat := 20

def modeFlashFast : Nat := 21

/-- Scan order of the mode pins, the `Modes` array of lines 89-94. -/
def Modes : List Nat :=
  [modeRand,
   modeDownSlow, modeDownMedium, modeDownFast,
   modeUpSlow, modeUpMedium, modeUpFast,
   modeFlashSlow, modeFlashMedium, modeFlashFast]

/-- Width of C `int` on the target; used but left undefined in the source. -/
def INT_BITS : Nat := 32

/-- Modulus of 32-bit wraparound. -/
def UINT_MOD : Nat := 2 ^ 32

/-- Arithmetic (sign extending) right shift of a 32-bit two of complement
pattern, the behaviour of `>>` on a negative `int` on the target compilers. -/
def sar32 (n d : Nat) : Nat :=
  if n < 2 ^ 31 then n >>> d
  else (n >>> d) ||| (UINT_MOD - 2 ^ (32 - d))

/-- Lines 348-356: `rightRotate(n) = (n >> d) | (n << (INT_BITS - d))` with
`d = 1`, a full-width 32-bit rotation of the `int` pattern. -/
def rightRotate (n : Nat) : Nat :=
  sar32 n 1 ||| ((n <<< (INT_BITS - 1)) % UINT_MOD)

/-- Lines 360-368: `leftRotate(n) = (n << d) | (n >> (INT_BITS - d))` with
`d = 1`, again over the full 32-bit width. -/
def leftRotate (n : Nat) : Nat :=
  ((n <<< 1) % UINT_MOD) ||| sar32 n (INT_BITS - 1)

/-- The global mutable state of the program: `Sequence_Stage` (line 125),
`BIAS_ON_MASK` (line 121) and `BIAS_OFF_MASK` (line 122). -/
structure SysState where
  sequenceStage : Nat
  biasOnMask : Nat
  biasOffMask : Nat
deriving DecidableEq

/-- The initial values of the globals: `Sequence_Stage = 0b100` (start on red),
`BIAS_ON_MASK = 0b000`, `BIAS_OFF_MASK = 0b111`. -/
def initState : SysState := ⟨0b100, 0b000, 0b111⟩

/-- C bitwise complement `~` on a 32-bit two of complement pattern. -/
def cnot32 (n : Nat) : Nat := UINT_MOD - 1 - n % UINT_MOD

/-- C left shift as it behaves on the target when the count register holds an
arbitrary pattern: the count is taken modulo the word size and the result wraps.
The source shifts by `~gpioRead(...)`, a negative count, which the C standard
leaves undefined; this models the common hardware reduction of the count. -/
def shlC (n c : Nat) : Nat := (n <<< (c % 32)) % UINT_MOD

/-- Lines 131-144, `updateOnBias`: on level 0 or 1 the source reassigns
`BIAS_ON_MASK = gpioRead(redOnBias) << gpioRead(amberOnBias) << gpioRead(greenOnBias)`,
i.e. `(r << a) << g` over the three pin reads; on level 2 (and any other
level via `default`) it does nothing. -/
def updateOnBias (s : SysState) (level : Nat) (redRead amberRead greenRead : Bool) : SysState :=
  if level = 0 ∨ level = 1 then
    { s with biasOnMask := (redRead.toNat <<< amberRead.toNat) <<< greenRead.toNat }
  else s

/-- Lines 151-164, `updateOffBias`: on level 0 or 1 the source reassigns
`BIAS_OFF_MASK = ~gpioRead(redOffBias) << ~gpioRead(amberOffBias) << ~gpioRead(greenOffBias)`;
the shift counts are the complemented reads, hence negative as `int` values,
so the shifts go through `shlC`. On level 2 and any other level it does nothing. -/
def updateOffBias (s : SysState) (level : Nat) (redRead amberRead greenRead : Bool) : SysState :=
  if level = 0 ∨ level = 1 then
    let m := shlC (shlC (cnot32 redRead.toNat) (cnot32 amberRead.toNat)) (cnot32 greenRead.toNat)
    { s with biasOffMask := m }
  else s

/-- Lines 170-176, `updateLights`: the `uint8_t` parameter truncates the request
modulo 256, the body keeps only the last 3 bits and writes
`(r & 0b100) >> 2` to the red pin, `(r & 0b010) >> 1` to the amber pin and
`r & 0b001` to the green pin. The result triple is (red, amber, green) levels. -/
def updateLights (outputRequest : Nat) : Nat × Nat × Nat :=
  let r := (outputRequest % 256) &&& 0b111
  ((r &&& 0b100) >>> 2, (r &&& 0b010) >>> 1, r &&& 0b001)

/-- The bias combinator shared by the step functions (lines 188-189, 200-201,
212-213): first `output = output | BIAS_ON_MASK`, then
`output = output & BIAS_OFF_MASK`. -/
def applyBias (candidate onMask offMask : Nat) : Nat :=
  let o1 := candidate ||| onMask
  o1 &&& offMask

/-- Lines 185-191, `RotateDown`: steps `Sequence_Stage` by `rightRotate`,
applies the two bias masks and sends the result to `updateLights`. Returns the
new state together with the value passed to `updateLights`. -/
def RotateDown (s : SysState) : SysState × Nat :=
  let st := rightRotate s.sequenceStage
  let out := applyBias st s.biasOnMask s.biasOffMask
  ({ s with sequenceStage := st }, out)

/-- Lines 197-203, `RotateUp`: same as `RotateDown` but steps by `leftRotate`. -/
def RotateUp (s : SysState) : SysState × Nat :=
  let st := leftRotate s.sequenceStage
  let out := applyBias st s.biasOnMask s.biasOffMask
  ({ s with sequenceStage := st }, out)

/-- Rotation indices into the dispatch array of line 225, from the defines on
lines 182, 194 and 206. -/
def rotateDown : Nat := 0

def rotateUp : Nat := 1

def rotateNone : Nat := 2

/-- State of the mode controller: the static locals `_speed` and `_rotation`
of `updateTimerMode` (lines 222-223) and the single pigpio timer slot 0, where
`some (interval, rotationIndex)` is an armed periodic timer whose callback is
the entry of the dispatch array at `rotationIndex`, and `none` means cancelled. -/
structure ModeState where
  speed : Nat
  rotation : Nat
  timer : Option (Nat × Nat)
deriving DecidableEq

/-- Initial mode controller state: `_speed = mediumSpeed`,
`_rotation = rotateDown` (lines 222-223), no timer armed yet. -/
def initModeState : ModeState := ⟨mediumSpeed, rotateDown, none⟩

/-- Line 227: `gpioSetTimerFunc(0, 10, NULL)` cancels timer slot 0. -/
def cancelTimer (s : ModeState) : ModeState := { s with timer := none }

/-- The `switch (_pin)` table of lines 234-279: the nine speed/direction pins
select a (speed, rotation) pair; `modeRand` and the `default` case fall through
without changing either, modelled as `none`. -/
def modeTable (pin : Nat) : Option (Nat × Nat) :=
  if pin = modeDownSlow then some (slowSpeed, rotateDown)
  else if pin = modeDownMedium then some (mediumSpeed, rotateDown)
  else if pin = modeDownFast then some (fastSpeed, rotateDown)
  else if pin = modeUpSlow then some (slowSpeed, rotateUp)
  else if pin = modeUpMedium then some (mediumSpeed, rotateUp)
  else if pin = modeUpFast then some (fastSpeed, rotateUp)
  else if pin = modeFlashSlow then some (slowSpeed, rotateNone)
  else if pin = modeFlashMedium then some (mediumSpeed, rotateNone)
  else if pin = modeFlashFast then some (fastSpeed, rotateNone)
  else none

/-- Lines 220-282, `updateTimerMode`: first the running timer is stopped
(line 227), then if the level is not 1 the function returns; otherwise the
statics are updated from the switch table (old values kept when the table has
no entry, as for `modeRand` and `default`) and the timer is re-armed at the
new speed with the callback selected by the new rotation index (line 281). -/
def updateTimerMode (s : ModeState) (pin level : Nat) : ModeState :=
  let s1 := cancelTimer s
  if level ≠ 1 then s1
  else
    let sr := (modeTable pin).getD (s1.speed, s1.rotation)
    { speed := sr.1, rotation := sr.2, timer := some sr }

/-- The startup scan loop body of lines 313-322: walk the pins in `Modes`
order; on the first pin reading high make one synthetic `updateTimerMode`
call with level 1 and break; pins reading low are skipped. -/
def scanLoop (l : List Nat) (reads : Nat → Bool) (s : ModeState) : ModeState :=
  match l with
  | [] => s
  | p :: rest => if reads p then updateTimerMode s p 1 else scanLoop rest reads s

/-- Lines 312-322 of `setup`: the scan runs over the whole `Modes` array. -/
def startupScan (reads : Nat → Bool) (s : ModeState) : ModeState :=
  scanLoop Modes reads s

/-- The nine speed/direction mode pins (the mode table minus `modeRand`). -/
def speedDirPins : List Nat :=
  [modeDownSlow, modeDownMedium, modeDownFast,
   modeUpSlow, modeUpMedium, modeUpFast,
   modeFlashSlow, modeFlashMedium, modeFlashFast]

/-- Property used by claim C3: the 3-bit field of `n` holds exactly one set bit. -/
def oneHot3 (n : Nat) : Prop :=
  n &&& 0b111 = 1 ∨ n &&& 0b111 = 2 ∨ n &&& 0b111 = 4

instance (n : Nat) : Decidable (oneHot3 n) := by
  unfold oneHot3
  exact inferInstance

end TrafficPi

namespace TrafficPi

/-! Helper lemmas shared by the claim theorems. -/

/-- Helper: when the mode table has an entry for the pin, a level-1 call arms
the timer with exactly that entry and stores its speed and rotation. -/
theorem updateTimerMode_arm (s : ModeState) (p : Nat) (sr : Nat × Nat)
    (h : modeTable p = some sr) :
    updateTimerMode s p 1 = ⟨sr.1, sr.2, some sr⟩ := by
  simp [updateTimerMode, cancelTimer, h]

/-- Helper: every speed/direction pin has a mode table entry. -/
theorem modeTable_isSome (p : Nat) (hp : p ∈ speedDirPins) :
    (modeTable p).isSome := by
  fin_cases hp <;> decide

/-- Helper: the startup scan loop acts as the first-match search over its pin
list, calling `updateTimerMode` once for the first pin that reads high. -/
theorem scanLoop_eq_find (reads : Nat → Bool) (s : ModeState) (l : List Nat) :
    scanLoop l reads s =
      (match l.find? reads with
       | some p => updateTimerMode s p 1
       | none => s) := by
  induction l with
  | nil => rfl
  | cons p rest ih =>
    by_cases h : reads p
    · simp [scanLoop, List.find?_cons_of_pos _ h, h]
    · simp [scanLoop, List.find?_cons_of_neg _ h, h, ih]

/-! Claim theorems. -/

/-- Claim C1: the bias combinator of the step functions returns
`(candidate | BIAS_ON_MASK) & BIAS_OFF_MASK`, with the ON bias applied first
and the OFF bias second; when lamp L has its force-on bit set while its
force-off is active (off-mask bit clear), the output bit for L is 0, so
force-off vetoes force-on. -/
theorem C1_override_combinator (c onM offM L : Nat)
    (h1 : Nat.testBit onM L = true) (h2 : Nat.testBit offM L = false) :
    applyBias c onM offM = (c ||| onM) &&& offM ∧
      Nat.testBit (applyBias c onM offM) L = false := by
  refine ⟨rfl, ?_⟩
  simp [applyBias, Nat.testBit_and, h2]

theorem C1_witness :
    applyBias 5 4 3 = (5 ||| 4) &&& 3 ∧ Nat.testBit (applyBias 5 4 3) 2 = false :=
  C1_override_combinator 5 4 3 2 (by decide) (by decide)

/-- Claim C2 counterexample: the claim says a level-0 event is a complete
no-op, but `updateTimerMode` stops the running timer (line 227) before the
level check, so with a timer armed the call does change the state. -/
theorem C2_counterexample :
    updateTimerMode ⟨2000, 0, some (2000, 0)⟩ 5 0 ≠ ⟨2000, 0, some (2000, 0)⟩ := by
  decide

/-- Claim C2, amended: with level 0 or 2, `updateTimerMode` leaves the armed
speed and rotation unchanged and arms no new timer, but it always cancels the
running timer first (the cancel on line 227 precedes the level check), so the
call returns with no timer armed rather than being a complete no-op. -/
theorem C2_level_not_one (s : ModeState) (pin level : Nat)
    (h : level = 0 ∨ level = 2) :
    updateTimerMode s pin level = ⟨s.speed, s.rotation, none⟩ := by
  rcases h with rfl | rfl <;> rfl

theorem C2_witness :
    updateTimerMode ⟨2000, 0, some (2000, 0)⟩ 5 0 = ⟨2000, 0, none⟩ :=
  C2_level_not_one ⟨2000, 0, some (2000, 0)⟩ 5 0 (Or.inl rfl)

/-- Claim C3 (code bug): the source rotations are full 32-bit rotations, so a
single set bit in the 3-bit field is rotated out of the field instead of
wrapping inside it: `rightRotate 0b001 = 2 ^ 31` and `leftRotate 0b100 = 0b1000`,
neither of which has exactly one set bit in the 3-bit field. -/
theorem C3_single_bit_lost :
    oneHot3 0b001 ∧ rightRotate 0b001 = 2 ^ 31 ∧ ¬ oneHot3 (rightRotate 0b001) ∧
      oneHot3 0b100 ∧ leftRotate 0b100 = 0b1000 ∧ ¬ oneHot3 (leftRotate 0b100) := by
  decide

/-- Claim C4 (code bug): the rotations are not mutual inverses on the 3-bit
domain. The composition `rightRotate` after `leftRotate` does return 0b001,
but `leftRotate (rightRotate 0b001)` is 4294967295 (the sign-extending right
shift smears the wrapped sign bit), not 0b001, and even its 3-bit field is
0b111, not 0b001. -/
theorem C4_not_mutual_inverses :
    rightRotate (leftRotate 0b001) = 0b001 ∧
      leftRotate (rightRotate 0b001) = 4294967295 ∧
      leftRotate (rightRotate 0b001) ≠ 0b001 ∧
      (leftRotate (rightRotate 0b001)) &&& 0b111 ≠ 0b001 := by
  decide

/-- Claim C5 (code bug): from `Sequence_Stage = 0b100` with default masks, one
`RotateDown` step does output 0b010 (amber) as claimed, but one `RotateUp`
step outputs 0b000 — `leftRotate 0b100 = 0b1000` pushes the bit above the
3-bit field and the AND with the default OFF mask clears everything, so all
lamps go dark instead of green (0b001). -/
theorem C5_step_scenarios :
    (RotateDown initState).2 = 0b010 ∧
      (RotateUp initState).2 = 0b000 ∧
      (RotateUp initState).2 ≠ 0b001 ∧
      updateLights (RotateUp initState).2 = (0, 0, 0) := by
  decide

/-- Claim C6 (code bug): a level-1 force-on event with switch reads
red = 1, amber = 0, green = 0 makes the source compute
`BIAS_ON_MASK = (1 << 0) << 0 = 0b001`: bit 2 (red) stays clear although the
red switch reads high, and bit 0 (green) is set instead, contradicting the
claimed per-lamp bit update. -/
theorem C6_on_mask_wrong_bit :
    (updateOnBias initState 1 true false false).biasOnMask = 0b001 ∧
      Nat.testBit (updateOnBias initState 1 true false false).biasOnMask 2 = false ∧
      Nat.testBit (updateOnBias initState 1 true false false).biasOnMask 0 = true := by
  decide

/-- Claim C7: on a rising edge (level 1) for any of the nine speed/direction
pins, the timer is first cancelled (the mid-state after `cancelTimer` holds no
timer), then exactly one timer is armed at the table speed of the pin with the
callback index of the table rotation for that pin; a second level-1 call for
another pin leaves exactly the timer of the second selection armed. -/
theorem C7_mode_switch_timer (s : ModeState) (p q : Nat)
    (hp : p ∈ speedDirPins) (hq : q ∈ speedDirPins) :
    (cancelTimer s).timer = none ∧
      (∃ sr, modeTable p = some sr ∧ updateTimerMode s p 1 = ⟨sr.1, sr.2, some sr⟩) ∧
      (∃ sr, modeTable q = some sr ∧
        updateTimerMode (updateTimerMode s p 1) q 1 = ⟨sr.1, sr.2, some sr⟩) := by
  obtain ⟨sp, hsp⟩ := Option.isSome_iff_exists.mp (modeTable_isSome p hp)
  obtain ⟨sq, hsq⟩ := Option.isSome_iff_exists.mp (modeTable_isSome q hq)
  exact ⟨rfl, ⟨sp, hsp, updateTimerMode_arm s p sp hsp⟩,
    ⟨sq, hsq, updateTimerMode_arm _ q sq hsq⟩⟩

theorem C7_witness :
    (cancelTimer ⟨2000, 0, none⟩).timer = none ∧
      (∃ sr, modeTable 5 = some sr ∧
        updateTimerMode ⟨2000, 0, none⟩ 5 1 = ⟨sr.1, sr.2, some sr⟩) ∧
      (∃ sr, modeTable 12 = some sr ∧
        updateTimerMode (updateTimerMode ⟨2000, 0, none⟩ 5 1) 12 1 = ⟨sr.1, sr.2, some sr⟩) :=
  C7_mode_switch_timer ⟨2000, 0, none⟩ 5 12 (by decide) (by decide)

/-- Claim C8: when at least two distinct mode pins read high at the startup
scan, the scan does not error: it makes exactly one synthetic level-1
`updateTimerMode` call for the first active pin in the fixed `Modes` scan
order (the first-match result of the search over the list) and ignores the
rest. -/
theorem C8_startup_scan (reads : Nat → Bool) (s : ModeState) (p q : Nat)
    (hp : p ∈ Modes) (hq : q ∈ Modes) (hpq : p ≠ q)
    (hrp : reads p = true) (hrq : reads q = true) :
    ∃ m, Modes.find? reads = some m ∧ reads m = true ∧
      startupScan reads s = updateTimerMode s m 1 := by
  have hsome : (Modes.find? reads).isSome :=
    List.find?_isSome.mpr ⟨p, hp, hrp⟩
  obtain ⟨m, hm⟩ := Option.isSome_iff_exists.mp hsome
  refine ⟨m, hm, List.find?_some hm, ?_⟩
  rw [startupScan, scanLoop_eq_find, hm]

theorem C8_witness :
    ∃ m, Modes.find? (fun n => n == 6 || n == 20) = some m ∧
      (fun n => n == 6 || n == 20) m = true ∧
      startupScan (fun n => n == 6 || n == 20) ⟨2000, 0, none⟩ =
        updateTimerMode ⟨2000, 0, none⟩ m 1 :=
  C8_startup_scan (fun n => n == 6 || n == 20) ⟨2000, 0, none⟩ 6 20
    (by decide) (by decide) (by decide) (by decide) (by decide)

/-- Claim C9: the bias handlers never touch the sequence state, and each one
writes only its own mask: `updateOnBias` leaves `Sequence_Stage` and
`BIAS_OFF_MASK` unchanged, and `updateOffBias` leaves `Sequence_Stage` and
`BIAS_ON_MASK` unchanged, for every level and every combination of reads. -/
theorem C9_bias_handlers_frame (s : SysState) (level : Nat) (r a g : Bool) :
    (updateOnBias s level r a g).sequenceStage = s.sequenceStage ∧
      (updateOnBias s level r a g).biasOffMask = s.biasOffMask ∧
      (updateOffBias s level r a g).sequenceStage = s.sequenceStage ∧
      (updateOffBias s level r a g).biasOnMask = s.biasOnMask := by
  refine ⟨?_, ?_, ?_, ?_⟩ <;>
    simp only [updateOnBias, updateOffBias] <;> split <;> rfl

/-- Claim C10: `updateLights` depends only on the low 3 bits of its request:
for every 8-bit request, the levels written to the red, amber and green pins
coincide with those written for the request masked to its low 3 bits. -/
theorem C10_lights_low_bits (r : Nat) (h : r < 256) :
    updateLights r = updateLights (r &&& 0b111) := by
  have h1 : r % 256 = r := Nat.mod_eq_of_lt h
  have h2 : (r &&& 7) % 256 = r &&& 7 :=
    Nat.mod_eq_of_lt (lt_of_le_of_lt Nat.and_le_right (by norm_num))
  have h3 : (r &&& 7) &&& 7 = r &&& 7 := by rw [Nat.and_assoc, show (7 : Nat) &&& 7 = 7 from rfl]
  simp only [updateLights, h1, h2, h3]

theorem C10_witness : updateLights 214 = updateLights (214 &&& 0b111) :=
  C10_lights_low_bits 214 (by decide)

end TrafficPi
